import Mathlib

/-!
# Verification of the MCP Lambda request handler

A shallow embedding in Lean 4 of `src/assets/server/mcp_server/mcp_handler.py`
(class `MCPLambdaHandler`): the JSON-RPC dispatcher, the schema synthesizer
used at tool/prompt registration, and the content normalizer, together with
theorems about the specified behaviour.

Python dictionaries with string keys are embedded as insertion-ordered
association lists with unique keys (updates overwrite in place, new keys are
appended, matching CPython dict semantics).  Python exceptions are embedded as
an `Except` error channel carrying the exception kind and its `str(e)` text.
-/

deriving instance DecidableEq for Except

namespace MCP

/-- Embedding of JSON values (the payloads moved by the handler). -/
inductive Json where
  | null : Json
  | bool (b : Bool) : Json
  | num (n : Int) : Json
  | str (s : String) : Json
  | arr (elems : List Json) : Json
  | obj (pairs : List (String × Json)) : Json

mutual

/-- Structural equality test on embedded JSON values (needed because the
nested occurrences of `List` keep the deriving handler from applying). -/
def Json.eqb (a b : Json) : Bool :=
  match a, b with
  | .null, .null => true
  | .bool x, .bool y => x == y
  | .num x, .num y => x == y
  | .str x, .str y => x == y
  | .arr xs, .arr ys => Json.eqbElems xs ys
  | .obj ps, .obj qs => Json.eqbPairs ps qs
  | _, _ => false

/-- Structural equality test on element lists of a JSON array. -/
def Json.eqbElems (xs ys : List Json) : Bool :=
  match xs, ys with
  | [], [] => true
  | x :: xt, y :: yt => Json.eqb x y && Json.eqbElems xt yt
  | _, _ => false

/-- Structural equality test on key/value pair lists of a JSON object. -/
def Json.eqbPairs (ps qs : List (String × Json)) : Bool :=
  match ps, qs with
  | [], [] => true
  | p :: pt, q :: qt => p.1 == q.1 && Json.eqb p.2 q.2 && Json.eqbPairs pt qt
  | _, _ => false

end

mutual

def Json.eqb_refl : ∀ a : Json, Json.eqb a a = true
  | .null => rfl
  | .bool x => by simp [Json.eqb]
  | .num x => by simp [Json.eqb]
  | .str x => by simp [Json.eqb]
  | .arr xs => by simpa [Json.eqb] using Json.eqbElems_refl xs
  | .obj ps => by simpa [Json.eqb] using Json.eqbPairs_refl ps

def Json.eqbElems_refl : ∀ xs : List Json, Json.eqbElems xs xs = true
  | [] => rfl
  | x :: xt => by
      simp [Json.eqbElems, Json.eqb_refl x, Json.eqbElems_refl xt]

def Json.eqbPairs_refl : ∀ ps : List (String × Json), Json.eqbPairs ps ps = true
  | [] => rfl
  | p :: pt => by
      simp [Json.eqbPairs, Json.eqb_refl p.2, Json.eqbPairs_refl pt]

end

mutual

def Json.eqb_sound : ∀ a b : Json, Json.eqb a b = true → a = b
  | .null, b, h => by cases b <;> simp_all [Json.eqb]
  | .bool x, b, h => by
      cases b <;> simp [Json.eqb] at h
      rw [h]
  | .num x, b, h => by
      cases b <;> simp [Json.eqb] at h
      rw [h]
  | .str x, b, h => by
      cases b <;> simp [Json.eqb] at h
      rw [h]
  | .arr xs, b, h => by
      cases b with
      | arr ys =>
          have hl : Json.eqbElems xs ys = true := by simpa [Json.eqb] using h
          exact congrArg Json.arr (Json.eqbElems_sound xs ys hl)
      | null => simp [Json.eqb] at h
      | bool y => simp [Json.eqb] at h
      | num y => simp [Json.eqb] at h
      | str y => simp [Json.eqb] at h
      | obj qs => simp [Json.eqb] at h
  | .obj ps, b, h => by
      cases b with
      | obj qs =>
          have hl : Json.eqbPairs ps qs = true := by simpa [Json.eqb] using h
          exact congrArg Json.obj (Json.eqbPairs_sound ps qs hl)
      | null => simp [Json.eqb] at h
      | bool y => simp [Json.eqb] at h
      | num y => simp [Json.eqb] at h
      | str y => simp [Json.eqb] at h
      | arr ys => simp [Json.eqb] at h

def Json.eqbElems_sound : ∀ xs ys : List Json, Json.eqbElems xs ys = true → xs = ys
  | [], [], _ => rfl
  | [], _ :: _, h => by simp [Json.eqbElems] at h
  | _ :: _, [], h => by simp [Json.eqbElems] at h
  | x :: xt, y :: yt, h => by
      rw [Json.eqbElems, Bool.and_eq_true] at h
      rw [Json.eqb_sound x y h.1, Json.eqbElems_sound xt yt h.2]

def Json.eqbPairs_sound :
    ∀ ps qs : List (String × Json), Json.eqbPairs ps qs = true → ps = qs
  | [], [], _ => rfl
  | [], _ :: _, h => by simp [Json.eqbPairs] at h
  | _ :: _, [], h => by simp [Json.eqbPairs] at h
  | (k₁, v₁) :: pt, (k₂, v₂) :: qt, h => by
      rw [Json.eqbPairs, Bool.and_eq_true, Bool.and_eq_true] at h
      have hk : k₁ = k₂ := by simpa using h.1.1
      rw [hk, Json.eqb_sound v₁ v₂ h.1.2, Json.eqbPairs_sound pt qt h.2]

end

instance : DecidableEq Json := fun a b =>
  if h : Json.eqb a b = true then isTrue (Json.eqb_sound a b h)
  else isFalse fun he => h (by rw [he]; exact Json.eqb_refl b)

/-- Python truthiness of a JSON-decoded value (`None`, `False`, `0`, `""`,
`[]`, `{}` are falsy). -/
def Json.truthy : Json → Bool
  | .null => false
  | .bool b => b
  | .num n => n != 0
  | .str s => s ≠ ""
  | .arr xs => !xs.isEmpty
  | .obj kvs => !kvs.isEmpty

/-- `d.get(k)` on an insertion-ordered string-keyed dict (unique keys, so the
first match is the binding). -/
def dictGet (kvs : List (String × Json)) (k : String) : Option Json :=
  match kvs with
  | [] => none
  | (k₁, v) :: rest => if k₁ = k then some v else dictGet rest k

/-- `k in d` on a string-keyed dict. -/
def dictHasKey (kvs : List (String × Json)) (k : String) : Bool :=
  (dictGet kvs k).isSome

/-- `d[k] = v` on an insertion-ordered dict: overwrite in place if the key
exists, append otherwise (CPython dict semantics). -/
def dictSet {α : Type} (kvs : List (String × α)) (k : String) (v : α) :
    List (String × α) :=
  match kvs with
  | [] => [(k, v)]
  | (k₁, v₁) :: rest =>
      if k₁ = k then (k, v) :: rest else (k₁, v₁) :: dictSet rest k v

/-- Generic association-list lookup (used for the registries whose values are
not `Json`). -/
def alistGet {α : Type} (kvs : List (String × α)) (k : String) : Option α :=
  match kvs with
  | [] => none
  | (k₁, v) :: rest => if k₁ = k then some v else alistGet rest k

/-- Kinds of Python exceptions the handler's control flow distinguishes:
`json.JSONDecodeError` is caught by the dedicated `except` clause, every other
kind only by `except Exception` blocks. -/
inductive ExcKind where
  | jsonDecodeError
  | keyError
  | typeError
  | attributeError
  | valueError
  | indexError
  | validationError
  | userExc
  deriving DecidableEq, Repr

/-- A raised Python exception: its kind and its `str(e)` text. -/
structure PyExc where
  kind : ExcKind
  msg : String
  deriving DecidableEq, Repr

/-! ## base64 (the `base64.b64encode` call in `_convert_result_to_content`) -/

/-- The RFC 4648 base64 alphabet (26 uppercase letters, 26 lowercase
letters, 10 digits, then `+` and `/`), as a character list. -/
def b64Alphabet : List Char :=
  ((List.range 26).map fun i => Char.ofNat (65 + i))
  ++ ((List.range 26).map fun i => Char.ofNat (97 + i))
  ++ ((List.range 10).map fun i => Char.ofNat (48 + i))
  ++ ['+', '/']

/-- Character for a six-bit group. -/
def sextetToChar (n : Nat) : Char := b64Alphabet.getD n '='

/-- Index of a base64 character in the alphabet (inverse of `sextetToChar` on
values below 64). -/
def charToSextet (c : Char) : Nat := b64Alphabet.indexOf c

/-- `base64.b64encode` over a byte list: three bytes become four alphabet
characters; a two-byte tail becomes three characters plus one pad; a one-byte
tail becomes two characters plus two pads. -/
def b64encodeChars : List Nat → List Char
  | a :: b :: c :: rest =>
      sextetToChar (a / 4) ::
      sextetToChar (a % 4 * 16 + b / 16) ::
      sextetToChar (b % 16 * 4 + c / 64) ::
      sextetToChar (c % 64) ::
      b64encodeChars rest
  | [a, b] =>
      [sextetToChar (a / 4), sextetToChar (a % 4 * 16 + b / 16),
       sextetToChar (b % 16 * 4), '=']
  | [a] =>
      [sextetToChar (a / 4), sextetToChar (a % 4 * 16), '=', '=']
  | [] => []

/-- Standard base64 decoding over a character list (the inverse direction a
client applies to the `data` field). -/
def b64decodeChars : List Char → List Nat
  | c1 :: c2 :: c3 :: c4 :: rest =>
      let s1 := charToSextet c1
      let s2 := charToSextet c2
      let s3 := charToSextet c3
      let s4 := charToSextet c4
      if c3 = '=' then [s1 * 4 + s2 / 16]
      else if c4 = '=' then [s1 * 4 + s2 / 16, s2 % 16 * 16 + s3 / 4]
      else (s1 * 4 + s2 / 16) :: (s2 % 16 * 16 + s3 / 4) ::
           (s3 % 4 * 64 + s4) :: b64decodeChars rest
  | _ => []

/-! ## Content models

Modelled from the spec: the `models` module of the `mcp_server` package is not
in the sources (only `mcp_handler.py` is); per spec section 3, a content item
is a tagged union over text, image (base64 + mime type) and error, and each
pydantic model's `model_dump()` is its field dictionary. -/

/-- Modelled from the spec: `TextContent(...).model_dump()` (missing
`models` module; spec section 3, content-item union, text variant). -/
def textContentDump (s : String) : Json :=
  .obj [("type", .str "text"), ("text", .str s)]

/-- Modelled from the spec: `ImageContent(...).model_dump()` (missing
`models` module; spec section 3, image variant holds base64 data plus mime
type, field names as at the construction site in `mcp_handler.py`). -/
def imageContentDump (data : String) (mimeType : String) : Json :=
  .obj [("type", .str "image"), ("data", .str data), ("mimeType", .str mimeType)]

/-- Modelled from the spec: `ErrorContent(...).model_dump()` (missing
`models` module; spec section 3, error variant, constructed from the
exception text at the call sites in `mcp_handler.py`). -/
def errorContentDump (s : String) : Json :=
  .obj [("type", .str "error"), ("text", .str s)]

/-- A handler return value, as `_convert_result_to_content` discriminates it
by runtime type: a list, a `fastmcp` `ToolResult` (carrying the serialized
forms of its content elements), an `mcp` `PromptMessage` (carrying its
serialized form), raw bytes, or anything else (carrying its `str()` form). -/
inductive RValue where
  | list : List RValue → RValue
  | toolResult : List Json → RValue
  | promptMessage : Json → RValue
  | bytes : List Nat → RValue
  | other : String → RValue

/-- The PNG magic bytes `89 50 4E 47 0D 0A 1A 0A`. -/
def pngMagic : List Nat := [0x89, 0x50, 0x4E, 0x47, 0x0D, 0x0A, 0x1A, 0x0A]

/-- The JPEG magic bytes `FF D8 FF`. -/
def jpegMagic : List Nat := [0xFF, 0xD8, 0xFF]

/-- Mime-type sniffing on the leading bytes, exactly as in
`_convert_result_to_content`. -/
def sniffMime (bs : List Nat) : String :=
  if jpegMagic.isPrefixOf bs then "image/jpeg"
  else if pngMagic.isPrefixOf bs then "image/png"
  else if [0x47, 0x49, 0x46, 0x38, 0x37, 0x61].isPrefixOf bs
       ∨ [0x47, 0x49, 0x46, 0x38, 0x39, 0x61].isPrefixOf bs then "image/gif"
  else if [0x52, 0x49, 0x46, 0x46].isPrefixOf bs
       ∧ ((bs.drop 8).take 4 = [0x57, 0x45, 0x42, 0x50]) then "image/webp"
  else "application/octet-stream"

mutual

/-- `MCPLambdaHandler._convert_result_to_content`.  The `Except` channel is
the Python exception channel: `result.content[0]` on a `ToolResult` whose
content list is empty raises `IndexError`, which this function does not
catch. -/
def convertResultToContent : RValue → Except PyExc (List Json)
  | .list xs => convertResultList xs
  | .toolResult content =>
      match content with
      | c :: _ => .ok [c]
      | [] => .error ⟨.indexError, "list index out of range"⟩
  | .promptMessage dump => .ok [dump]
  | .bytes bs =>
      .ok [imageContentDump (String.mk (b64encodeChars bs)) (sniffMime bs)]
  | .other s => .ok [textContentDump s]

/-- The list comprehension inside `_convert_result_to_content`: each raw
result is converted in order and the content lists are concatenated; an
exception raised on any element propagates. -/
def convertResultList : List RValue → Except PyExc (List Json)
  | [] => .ok []
  | x :: xs => do
      let c ← convertResultToContent x
      let rest ← convertResultList xs
      return c ++ rest

end

/-! ## Schema synthesis (tool / prompt registration) -/

/-- A Python type annotation, as the registration code inspects it:
the four scalar builtins, an `Enum` subclass (with its name and the list of
member values), a generic alias whose `get_origin` is `dict` or `list`
(carrying its `get_args` list), a generic alias with any other origin, or a
plain class (where `get_origin` is `None`). -/
inductive PyType where
  | int : PyType
  | float : PyType
  | bool : PyType
  | str : PyType
  | enum : String → List Json → PyType
  | dictOf : List PyType → PyType
  | listOf : List PyType → PyType
  | otherGeneric : PyType
  | plain : PyType

/-- The recursive `get_type_schema` helper inside `MCPLambdaHandler.tool`. -/
def getTypeSchema : PyType → Json
  | .int => .obj [("type", .str "integer")]
  | .float => .obj [("type", .str "number")]
  | .bool => .obj [("type", .str "boolean")]
  | .str => .obj [("type", .str "string")]
  | .enum _ values => .obj [("type", .str "string"), ("enum", .arr values)]
  | .plain => .obj [("type", .str "string")]
  | .dictOf args =>
      let valueSchema :=
        match args with
        | _ :: v :: _ => getTypeSchema v
        | _ => Json.obj [("type", .str "string")]
      .obj [("type", .str "object"), ("additionalProperties", valueSchema)]
  | .listOf args =>
      let itemSchema :=
        match args with
        | e :: _ => getTypeSchema e
        | _ => Json.obj [("type", .str "string")]
      .obj [("type", .str "array"), ("items", itemSchema)]
  | .otherGeneric => .obj [("type", .str "string")]

/-- The flat per-parameter schema used by `MCPLambdaHandler.prompt`:
only the four scalar builtins are mapped, everything else becomes a string
schema. -/
def promptParamSchema : PyType → Json
  | .str => .obj [("type", .str "string")]
  | .int => .obj [("type", .str "integer")]
  | .float => .obj [("type", .str "number")]
  | .bool => .obj [("type", .str "boolean")]
  | _ => .obj [("type", .str "string")]

/-- The recursive type mapping exactly as the spec's section 4.1 words it:
scalars to their JSON scalar schemas, an enumerated type to a string schema
with the member values enumerated, a mapping type to an object schema whose
`additionalProperties` is the value type's schema (string when absent), a
sequence type to an array schema whose `items` is the element type's schema
(string when absent), anything else to a string schema. -/
def spec41TypeSchema : PyType → Json
  | .int => .obj [("type", .str "integer")]
  | .float => .obj [("type", .str "number")]
  | .bool => .obj [("type", .str "boolean")]
  | .str => .obj [("type", .str "string")]
  | .enum _ values => .obj [("type", .str "string"), ("enum", .arr values)]
  | .dictOf args =>
      let valueSchema :=
        match args with
        | _ :: v :: _ => spec41TypeSchema v
        | _ => Json.obj [("type", .str "string")]
      .obj [("type", .str "object"), ("additionalProperties", valueSchema)]
  | .listOf args =>
      let itemSchema :=
        match args with
        | e :: _ => spec41TypeSchema e
        | _ => Json.obj [("type", .str "string")]
      .obj [("type", .str "array"), ("items", itemSchema)]
  | .otherGeneric => .obj [("type", .str "string")]
  | .plain => .obj [("type", .str "string")]

/-- The `inputSchema` object built by `MCPLambdaHandler.tool` from the hint
dictionary (return hint already popped): every declared parameter becomes a
property via `get_type_schema` and is listed as required. -/
def toolInputSchema (hints : List (String × PyType)) : Json :=
  .obj [("type", .str "object"),
        ("properties", .obj (hints.map fun nt => (nt.1, getTypeSchema nt.2))),
        ("required", .arr (hints.map fun nt => .str nt.1))]

/-- The `inputSchema` object built by `MCPLambdaHandler.prompt` (flat
per-parameter mapping). -/
def promptInputSchema (hints : List (String × PyType)) : Json :=
  .obj [("type", .str "object"),
        ("properties", .obj (hints.map fun nt => (nt.1, promptParamSchema nt.2))),
        ("required", .arr (hints.map fun nt => .str nt.1))]

/-! ## Python `str()` rendering (used by the handler's f-strings) -/

mutual

/-- Python `str()` of a JSON-decoded value (`str(None) = "None"`, booleans
capitalized, containers rendered with `repr` elements). -/
def pyStr : Json → String
  | .null => "None"
  | .bool b => if b then "True" else "False"
  | .num n => toString n
  | .str s => s
  | .arr xs => "[" ++ pyReprList xs ++ "]"
  | .obj kvs => "\x7b" ++ pyReprObj kvs ++ "\x7d"

/-- Python `repr()` of a JSON-decoded value (strings quoted). -/
def pyRepr : Json → String
  | .null => "None"
  | .bool b => if b then "True" else "False"
  | .num n => toString n
  | .str s => "\x27" ++ s ++ "\x27"
  | .arr xs => "[" ++ pyReprList xs ++ "]"
  | .obj kvs => "\x7b" ++ pyReprObj kvs ++ "\x7d"

/-- Comma-separated `repr`s of list elements. -/
def pyReprList : List Json → String
  | [] => ""
  | [x] => pyRepr x
  | x :: xs => pyRepr x ++ ", " ++ pyReprList xs

/-- Comma-separated `key: repr(value)` pairs of a dict. -/
def pyReprObj : List (String × Json) → String
  | [] => ""
  | [(k, v)] => "\x27" ++ k ++ "\x27: " ++ pyRepr v
  | (k, v) :: kvs => "\x27" ++ k ++ "\x27: " ++ pyRepr v ++ ", " ++ pyReprObj kvs

end

/-- `str()` of `d.get(k)`: a missing key reads back as `None`. -/
def pyStrOpt : Option Json → String
  | none => "None"
  | some j => pyStr j

/-! ## Session store -/

/-- Modelled from the spec: the `session` module (`SessionStore`,
`NoOpSessionStore`, `DynamoDBSessionStore`) is not in the sources.  Per spec
section 4.2 the store is a key-value interface (`create`, `get`, `update`,
`delete`); the no-op variant treats every id as absent and every write as
failing gracefully.  A store is embedded by whether it is the no-op variant,
the set of currently existing session ids, and the fresh id `create_session`
returns.  The dispatcher only ever tests a fetched payload against `None`,
so payloads are embedded as `Unit`. -/
structure SessionStore where
  isNoOp : Bool
  existing : List String
  freshId : String

/-- Modelled from the spec: `get_session` returns the payload for an
existing session id and `None` otherwise; the no-op store treats every id
as absent. -/
def SessionStore.getSession (st : SessionStore) (sid : String) : Option Unit :=
  if st.isNoOp then none
  else if sid ∈ st.existing then some () else none

/-- Modelled from the spec: `delete_session` reports success exactly for an
existing id; the no-op store fails gracefully (returns false). -/
def SessionStore.deleteSession (st : SessionStore) (sid : String) : Bool :=
  if st.isNoOp then false else sid ∈ st.existing

/-- Modelled from the spec: `create_session` returns a session id. -/
def SessionStore.createSession (st : SessionStore) : String := st.freshId

/-! ## Registered callables and the handler state -/

/-- A registered Python callable, as the handler introspects and invokes it:
its `__name__`, its docstring (`inspect.getdoc`), its type-hint dictionary
(`get_type_hints`, possibly including a `"return"` entry), and its behaviour
when called with keyword arguments — a returned value or a raised
exception. -/
structure PyFunc where
  pyName : String
  doc : Option String
  hints : List (String × PyType)
  call : List (String × Json) → Except PyExc RValue

/-- Modelled from the spec: a registered resource (the `Resource` /
`StaticResource` models are not in the sources).  Per spec section 3 a
resource has a uri, a mime type, and either static content or a
content-producing function (`_content_func`); `dump` is its `model_dump()`
used by `resources/list`, `readContent` the serialized `read_content()`
of a static resource. -/
structure ResourceM where
  uri : String
  mimeType : String
  contentFunc : Option (Unit → Except PyExc String)
  dump : Json
  readContent : Except PyExc Json

/-- The mutable state of an `MCPLambdaHandler` instance: name, version, the
tool/prompt registries (descriptor dicts plus implementation dicts), the
resource registry, and the configured session store. -/
structure Handler where
  name : String
  version : String
  tools : List (String × Json)
  toolImpls : List (String × PyFunc)
  resources : List (String × ResourceM)
  prompts : List (String × Json)
  promptImpls : List (String × PyFunc)
  sessionStore : SessionStore

/-! ## Registration (`MCPLambdaHandler.tool` / `MCPLambdaHandler.prompt`) -/

/-- The characters before the first occurrence of `"\n\n"` (the whole list
when the separator never occurs). -/
def takeUntilBlankLine : List Char → List Char
  | [] => []
  | c :: rest =>
      if c = '\n' ∧ rest.head? = some '\n' then []
      else c :: takeUntilBlankLine rest

/-- `(inspect.getdoc(func) or "").split("\n\n")[0]` — the first paragraph of
the docstring, or the empty string. -/
def docFirstParagraph (doc : Option String) : String :=
  String.mk (takeUntilBlankLine (doc.getD "").data)

/-- Python `explicit or fallback` on strings: the explicit value when truthy
(present and non-empty), the fallback otherwise. -/
def pyOrStr (explicit : Option String) (fallback : String) : String :=
  match explicit with
  | some s => if s ≠ "" then s else fallback
  | none => fallback

/-- `hints.pop("return", ...)`: drop the return annotation entry before
building the schema. -/
def stripReturnHint (hints : List (String × PyType)) : List (String × PyType) :=
  hints.filter fun nt => nt.1 ≠ "return"

/-- The descriptor dict stored in `self.tools` (and, with the flat schema, in
`self.prompts`). -/
def descriptorDump (name description : String) (inputSchema : Json) : Json :=
  .obj [("name", .str name), ("description", .str description),
        ("inputSchema", inputSchema)]

/-- `MCPLambdaHandler.tool`: derive the public name (explicit override or
`__name__`), the description (explicit override or first docstring
paragraph), and the input schema via `get_type_schema`; store descriptor and
implementation under the name, overwriting any prior registration. -/
def registerTool (h : Handler) (nameArg : Option String)
    (descriptionArg : Option String) (f : PyFunc) : Handler :=
  let toolName := pyOrStr nameArg f.pyName
  let toolDescription := pyOrStr descriptionArg (docFirstParagraph f.doc)
  let hints := stripReturnHint f.hints
  { h with
    tools := dictSet h.tools toolName
      (descriptorDump toolName toolDescription (toolInputSchema hints)),
    toolImpls := dictSet h.toolImpls toolName f }

/-- `MCPLambdaHandler.prompt`: like `registerTool` but the schema uses the
flat per-parameter mapping. -/
def registerPrompt (h : Handler) (nameArg : Option String)
    (descriptionArg : Option String) (f : PyFunc) : Handler :=
  let promptName := pyOrStr nameArg f.pyName
  let promptDescription := pyOrStr descriptionArg (docFirstParagraph f.doc)
  let hints := stripReturnHint f.hints
  { h with
    prompts := dictSet h.prompts promptName
      (descriptorDump promptName promptDescription (promptInputSchema hints)),
    promptImpls := dictSet h.promptImpls promptName f }

/-! ## Requests, responses and the wire shape -/

/-- The validated JSON-RPC request (`JSONRPCRequest`): id, method, optional
params object. -/
structure JRReq where
  id : Option Json
  method : String
  params : Option (List (String × Json))

/-- Modelled from the spec: the `JSONRPCResponse` pydantic model is not in
the sources; per spec section 6 the body is
`{jsonrpc:"2.0", id, result?|error?}` with `error = {code, message}` and an
`errorContent` sibling carrying structured error content items.  The HTTP
body string is the JSON serialization of this value. -/
structure JRResp where
  id : Option Json
  result : Option Json
  error : Option (Int × String)
  errorContent : Option (List Json)
  deriving DecidableEq

/-- The Lambda proxy response returned by `handle_request`: status code,
optional JSON-RPC body, headers.  The bare `{"statusCode": ...}` dicts of
the DELETE path carry no body and no headers. -/
structure HttpResponse where
  statusCode : Nat
  body : Option JRResp
  headers : List (String × String)
  deriving DecidableEq

/-- The header dict both response builders construct: `Content-Type` and
`MCP-Version` always; `MCP-Session-Id` appended when the session id argument
is truthy (present and non-empty). -/
def baseHeaders (sessionId : Option String) : List (String × String) :=
  let hs := [("Content-Type", "application/json"), ("MCP-Version", "0.6")]
  match sessionId with
  | some sid => if sid ≠ "" then hs ++ [("MCP-Session-Id", sid)] else hs
  | none => hs

/-- `MCPLambdaHandler._error_code_to_http_status`: the fixed error-code to
HTTP-status table with default 500. -/
def errorCodeToHttpStatus (errorCode : Int) : Nat :=
  if errorCode = -32700 then 400
  else if errorCode = -32600 then 400
  else if errorCode = -32601 then 404
  else if errorCode = -32602 then 400
  else if errorCode = -32603 then 500
  else 500

/-- `MCPLambdaHandler._create_error_response`.  The status is
`status_code or self._error_code_to_http_status(code)` — the explicit status
wins when truthy (non-zero). -/
def createErrorResponse (code : Int) (message : String) (requestId : Option Json)
    (errorContent : Option (List Json)) (sessionId : Option String)
    (statusCode : Option Nat) : HttpResponse :=
  { statusCode :=
      match statusCode with
      | some sc => if sc ≠ 0 then sc else errorCodeToHttpStatus code
      | none => errorCodeToHttpStatus code
    body := some ⟨requestId, none, some (code, message), errorContent⟩
    headers := baseHeaders sessionId }

/-- `MCPLambdaHandler._create_success_response`. -/
def createSuccessResponse (result : Json) (requestId : Option Json)
    (sessionId : Option String) : HttpResponse :=
  { statusCode := 200
    body := some ⟨requestId, some result, none, none⟩
    headers := baseHeaders sessionId }

/-! ## The inbound event and body parsing -/

/-- The `body` entry of the Lambda event: either a string value — carrying
its JSON parse outcome — or a value of some other type. -/
inductive BodyVal where
  | jsonStr : Option Json → BodyVal
  | nonStr : BodyVal

/-- The Lambda proxy event as `handle_request` reads it: headers, optional
`httpMethod`, optional `body`. -/
structure Event where
  headers : List (String × String)
  httpMethod : Option String
  body : Option BodyVal

/-- ASCII lower-casing of a character (`str.lower` restricted to the ASCII
range header names live in). -/
def charLower (c : Char) : Char :=
  if 65 ≤ c.toNat ∧ c.toNat ≤ 90 then Char.ofNat (c.toNat + 32) else c

/-- ASCII `str.lower`. -/
def strLower (s : String) : String := String.mk (s.data.map charLower)

/-- `{k.lower(): v for k, v in event.get("headers", {}).items()}`. -/
def normalizeHeaders (hs : List (String × String)) : List (String × String) :=
  hs.foldl (fun acc kv => dictSet acc (strLower kv.1) kv.2) []

/-- Truthiness of an optional string (`headers.get(...)`): present and
non-empty. -/
def optStrTruthy : Option String → Bool
  | some s => s ≠ ""
  | none => false

/-- Truthiness of `d.get(k)` for a JSON value: present and truthy. -/
def jsonOptTruthy : Option Json → Bool
  | some j => j.truthy
  | none => false

/-- `json.loads(event["body"])`: a missing `"body"` key raises `KeyError`
(whose `str` is the quoted key), a non-string value makes `json.loads` raise
`TypeError`, and a string value either parses or raises
`json.JSONDecodeError` — only the last is caught by the dedicated
`except json.JSONDecodeError` clause. -/
def jsonLoads : Option BodyVal → Except PyExc Json
  | none => .error ⟨.keyError, "\x27body\x27"⟩
  | some .nonStr =>
      .error ⟨.typeError, "the JSON object must be str, bytes or bytearray"⟩
  | some (.jsonStr none) =>
      .error ⟨.jsonDecodeError, "Expecting value: line 1 column 1 (char 0)"⟩
  | some (.jsonStr (some j)) => .ok j

/-- Modelled from the spec: `JSONRPCRequest.model_validate` (the `models`
module is not in the sources; spec section 3 gives the envelope shape —
optional id, method name, optional params object).  Validation succeeds when
`method` is a string and `params`, when present and non-null, is an object;
otherwise pydantic raises, and only the outer `except Exception` catches
it. -/
def modelValidate (body : List (String × Json)) : Except PyExc JRReq :=
  match dictGet body "method" with
  | some (.str m) =>
      match dictGet body "params" with
      | none => .ok ⟨dictGet body "id", m, none⟩
      | some .null => .ok ⟨dictGet body "id", m, none⟩
      | some (.obj kvs) => .ok ⟨dictGet body "id", m, some kvs⟩
      | some _ => .error ⟨.validationError, "validation error for JSONRPCRequest"⟩
  | _ => .error ⟨.validationError, "validation error for JSONRPCRequest"⟩

/-- Truthiness of `request.params` (`None` and the empty dict are falsy). -/
def paramsTruthy : Option (List (String × Json)) → Bool
  | some (_ :: _) => true
  | _ => false

/-! ## Tool / prompt invocation (the bodies of the `try` blocks) -/

/-- `tool_args.items()`: iterating a non-dict raises. -/
def jsonItems (j : Json) : Except PyExc (List (String × Json)) :=
  match j with
  | .obj kvs => .ok kvs
  | _ => .error ⟨.attributeError, "object has no attribute \x27items\x27"⟩

/-- `func(**args)` keyword expansion: a non-dict raises `TypeError`. -/
def kwargsOf (j : Json) : Except PyExc (List (String × Json)) :=
  match j with
  | .obj kvs => .ok kvs
  | _ => .error ⟨.typeError, "argument after ** must be a mapping"⟩

/-- The argument-coercion loop of the `tools/call` branch: an argument whose
declared type hint is an `Enum` subclass goes through the enum constructor —
`ValueError` when the value is not a member value — and every other argument
passes through unchanged (the enum member is embedded by its value). -/
def convertArgs (hints : List (String × PyType)) :
    List (String × Json) → Except PyExc (List (String × Json))
  | [] => .ok []
  | (n, v) :: rest => do
      let v₁ ←
        match alistGet hints n with
        | some (.enum ename values) =>
            if v ∈ values then Except.ok v
            else .error ⟨.valueError, pyRepr v ++ " is not a valid " ++ ename⟩
        | _ => Except.ok v
      let rest₁ ← convertArgs hints rest
      .ok ((n, v₁) :: rest₁)

/-- The body of the `try` block of the `tools/call` branch: look up the
implementation (`KeyError` when the registries diverge), re-inspect its type
hints, coerce enum-typed arguments, invoke, and normalize the result.  Any
`.error` is what the `except Exception` clause catches. -/
def runToolBody (h : Handler) (toolName : String) (toolArgs : Json) :
    Except PyExc (List Json) := do
  let f ←
    match alistGet h.toolImpls toolName with
    | some f => Except.ok f
    | none => .error ⟨.keyError, "\x27" ++ toolName ++ "\x27"⟩
  let kvs ← jsonItems toolArgs
  let conv ← convertArgs f.hints kvs
  let r ← f.call conv
  convertResultToContent r

/-- The body of the `try` block of the `prompts/get` branch: look up the
implementation, invoke it with the raw params as keyword arguments, and
normalize the result. -/
def runPromptBody (h : Handler) (promptName : String) (promptArgs : Json) :
    Except PyExc (List Json) := do
  let f ←
    match alistGet h.promptImpls promptName with
    | some f => Except.ok f
    | none => .error ⟨.keyError, "\x27" ++ promptName ++ "\x27"⟩
  let kvs ← kwargsOf promptArgs
  let r ← f.call kvs
  convertResultToContent r

/-! ## The dispatcher (`MCPLambdaHandler.handle_request`) -/

/-- Modelled from the spec: `InitializeResult(...).model_dump()` (the
`models` module is not in the sources; spec section 4.5 step 6 — server
name/version, protocol version, static capability flags for list+call,
list+read, list+get; literals as at the construction site in
`mcp_handler.py`). -/
def initializeResultDump (h : Handler) : Json :=
  .obj [("protocolVersion", .str "2024-11-05"),
        ("serverInfo", .obj [("name", .str h.name), ("version", .str h.version)]),
        ("capabilities", .obj
          [("tools", .obj [("list", .bool true), ("call", .bool true)]),
           ("resources", .obj [("list", .bool true), ("read", .bool true)]),
           ("prompts", .obj [("list", .bool true), ("get", .bool true)])])]

/-- Modelled from the spec: `ResourceContent(...).model_dump()` (missing
`models` module; field names as at the construction site in
`mcp_handler.py`). -/
def resourceContentDump (uri mimeType text : String) : Json :=
  .obj [("uri", .str uri), ("mimeType", .str mimeType), ("text", .str text)]

/-- The `resources/read` branch of `handle_request`. -/
def resourcesRead (h : Handler) (req : JRReq) (sessionId : Option String) :
    HttpResponse :=
  if paramsTruthy req.params = false
      ∨ jsonOptTruthy (dictGet (req.params.getD []) "uri") = false then
    createErrorResponse (-32602) "Missing required parameter: uri"
      req.id none sessionId none
  else
    match (dictGet (req.params.getD []) "uri").getD .null with
    | .str uri =>
        (match alistGet h.resources uri with
         | some res =>
             (match res.contentFunc with
              | some f =>
                  (match f () with
                   | .ok content =>
                       createSuccessResponse
                         (.obj [("contents",
                                 .arr [resourceContentDump uri res.mimeType content])])
                         req.id sessionId
                   | .error e =>
                       createErrorResponse (-32603)
                         ("Error reading resource: " ++ e.msg) req.id
                         (some [errorContentDump e.msg]) sessionId none)
              | none =>
                  (match res.readContent with
                   | .ok dump =>
                       createSuccessResponse (.obj [("contents", .arr [dump])])
                         req.id sessionId
                   | .error e =>
                       createErrorResponse (-32603)
                         ("Error reading resource: " ++ e.msg) req.id
                         (some [errorContentDump e.msg]) sessionId none))
         | none =>
             createErrorResponse (-32601) ("Resource not found: " ++ uri)
               req.id none sessionId none)
    | other =>
        createErrorResponse (-32601) ("Resource not found: " ++ pyStr other)
          req.id none sessionId none

/-- The method-routing tail of `handle_request` (lines after the session
check): `tools/list`, `tools/call`, `prompts/list`, `prompts/get`,
`resources/list`, `resources/read`, `ping`, unknown method — in source
order. -/
def routeMethod (h : Handler) (req : JRReq) (sessionId : Option String) :
    HttpResponse :=
  if req.method = "tools/list" then
    createSuccessResponse (.obj [("tools", .arr (h.tools.map Prod.snd))])
      req.id sessionId
  else if req.method = "tools/call" ∧ paramsTruthy req.params = true then
    let params := req.params.getD []
    let toolName := dictGet params "name"
    let toolArgs := (dictGet params "arguments").getD (.obj [])
    let notFound :=
      createErrorResponse (-32601)
        ("Tool \x27" ++ pyStrOpt toolName ++ "\x27 not found")
        req.id none sessionId none
    match toolName with
    | some (.str tn) =>
        if (alistGet h.tools tn).isSome then
          match runToolBody h tn toolArgs with
          | .ok content =>
              createSuccessResponse (.obj [("content", .arr content)])
                req.id sessionId
          | .error e =>
              createErrorResponse (-32603) ("Error executing tool: " ++ e.msg)
                req.id (some [errorContentDump e.msg]) sessionId none
        else notFound
    | _ => notFound
  else if req.method = "prompts/list" then
    createSuccessResponse (.obj [("prompts", .arr (h.prompts.map Prod.snd))])
      req.id sessionId
  else if req.method = "prompts/get" ∧ paramsTruthy req.params = true then
    let params := req.params.getD []
    let promptName := dictGet params "name"
    let promptArgs := (dictGet params "arguments").getD (.obj [])
    let notFound :=
      createErrorResponse (-32601)
        ("Prompt \x27" ++ pyStrOpt promptName ++ "\x27 not found")
        req.id none sessionId none
    match promptName with
    | some (.str pn) =>
        if (alistGet h.prompts pn).isSome then
          match runPromptBody h pn promptArgs with
          | .ok content =>
              createSuccessResponse (.obj [("messages", .arr content)])
                req.id sessionId
          | .error e =>
              createErrorResponse (-32603) ("Error executing prompt: " ++ e.msg)
                req.id (some [errorContentDump e.msg]) sessionId none
        else notFound
    | _ => notFound
  else if req.method = "resources/list" then
    createSuccessResponse
      (.obj [("resources", .arr (h.resources.map fun r => r.2.dump))])
      req.id sessionId
  else if req.method = "resources/read" then
    resourcesRead h req sessionId
  else if req.method = "ping" then
    createSuccessResponse (.obj []) req.id sessionId
  else
    createErrorResponse (-32601) ("Method not found: " ++ req.method)
      req.id none sessionId none

/-- The validated-request part of `handle_request`: `initialize` is always
allowed and creates a session; any other method first passes the session
check (a supplied session id must resolve, and a missing one requires the
no-op store), then routes. -/
def dispatchValidated (h : Handler) (req : JRReq) (sessionId : Option String) :
    HttpResponse :=
  if req.method = "initialize" then
    let newSid := h.sessionStore.createSession
    createSuccessResponse (initializeResultDump h) req.id (some newSid)
  else if optStrTruthy sessionId = true then
    match h.sessionStore.getSession (sessionId.getD "") with
    | none =>
        createErrorResponse (-32000) "Invalid or expired session"
          req.id none none (some 404)
    | some _ => routeMethod h req sessionId
  else if h.sessionStore.isNoOp = false then
    createErrorResponse (-32000) "Session required" req.id none none (some 400)
  else
    routeMethod h req sessionId

/-- Whether the parsed body fails the envelope check
(`not isinstance(body, dict) or body.get("jsonrpc") != "2.0" or
"method" not in body`). -/
def envelopeBad (j : Json) : Bool :=
  match j with
  | .obj kvs =>
      !(dictGet kvs "jsonrpc" == some (.str "2.0")) || !dictHasKey kvs "method"
  | _ => true

/-- `MCPLambdaHandler.handle_request`: normalize headers, extract the
session id, take the DELETE shortcut, require the JSON content type, parse
and validate the body, then dispatch.  Exceptions other than
`json.JSONDecodeError` raised while obtaining the body, and pydantic
validation errors, reach the outer `except Exception` clause, which reports
`-32000` with the exception text and whatever `request_id` / `session_id`
had been resolved at that point. -/
def handle_request (h : Handler) (ev : Event) : HttpResponse :=
  let hdrs := normalizeHeaders ev.headers
  let sessionId := alistGet hdrs "mcp-session-id"
  if ev.httpMethod = some "DELETE" ∧ optStrTruthy sessionId = true then
    if h.sessionStore.deleteSession (sessionId.getD "") then
      ⟨204, none, []⟩
    else
      ⟨404, none, []⟩
  else if alistGet hdrs "content-type" ≠ some "application/json" then
    createErrorResponse (-32700) "Unsupported Media Type" none none none none
  else
    match jsonLoads ev.body with
    | .error e =>
        if e.kind = .jsonDecodeError then
          createErrorResponse (-32700) "Parse error" none none none none
        else
          createErrorResponse (-32000) e.msg none none sessionId none
    | .ok bodyJson =>
        match bodyJson with
        | .obj kvs =>
            let requestId := dictGet kvs "id"
            if envelopeBad bodyJson then
              createErrorResponse (-32700) "Parse error" requestId none none none
            else
              match modelValidate kvs with
              | .error e =>
                  createErrorResponse (-32000) e.msg requestId none sessionId none
              | .ok req => dispatchValidated h req sessionId
        | _ => createErrorResponse (-32700) "Parse error" none none none none

/-! ## Concrete event families used by the theorems -/

/-- A POST event with JSON content type and a parsed JSON-RPC body without
params. -/
def rpcEventNoParams (rid : Json) (method : String) : Event :=
  ⟨[("content-type", "application/json")], some "POST",
   some (.jsonStr (some (.obj
     [("jsonrpc", .str "2.0"), ("id", rid), ("method", .str method)])))⟩

/-- A POST event with JSON content type and a parsed JSON-RPC body with a
params object. -/
def rpcEventParams (rid : Json) (method : String)
    (params : List (String × Json)) : Event :=
  ⟨[("content-type", "application/json")], some "POST",
   some (.jsonStr (some (.obj
     [("jsonrpc", .str "2.0"), ("id", rid), ("method", .str method),
      ("params", .obj params)])))⟩

/-- A well-formed `tools/call` event. -/
def toolsCallEvent (rid : Json) (name : String) (args : Json) : Event :=
  rpcEventParams rid "tools/call" [("name", .str name), ("arguments", args)]

/-- A well-formed `prompts/get` event. -/
def promptsGetEvent (rid : Json) (name : String) (args : Json) : Event :=
  rpcEventParams rid "prompts/get" [("name", .str name), ("arguments", args)]

/-- A POST event carrying an `MCP-Session-Id` header and a parsed body
without params. -/
def sessionRpcEvent (sid : String) (rid : Json) (method : String) : Event :=
  ⟨[("content-type", "application/json"), ("mcp-session-id", sid)],
   some "POST",
   some (.jsonStr (some (.obj
     [("jsonrpc", .str "2.0"), ("id", rid), ("method", .str method)])))⟩

/-- An event with JSON content type, a session header, an arbitrary verb and
an arbitrary (possibly missing) `body` entry. -/
def bodylessEvent (m : String) (sid : String) (b : Option BodyVal) : Event :=
  ⟨[("content-type", "application/json"), ("mcp-session-id", sid)], some m, b⟩

/-- A DELETE event carrying a session id header. -/
def deleteEvent (sid : String) : Event :=
  ⟨[("MCP-Session-Id", sid)], some "DELETE", none⟩

/-! ## Specification-side definitions used in amended statements -/

/-- The flat per-parameter prompt mapping as the amended statement words it:
the four scalar builtins map to their scalar schemas and every other
declared type (enumerated, mapping, sequence, or anything else) maps to the
string schema. -/
def specPromptFlatSchema : PyType → Json
  | .int => .obj [("type", .str "integer")]
  | .float => .obj [("type", .str "number")]
  | .bool => .obj [("type", .str "boolean")]
  | .str => .obj [("type", .str "string")]
  | _ => .obj [("type", .str "string")]

/-- The session id a response builder echoes in `MCP-Session-Id`: its
session-id argument exactly when that argument is truthy (present and
non-empty). -/
def sessionEcho : Option String → Option String
  | some s => if s ≠ "" then some s else none
  | none => none

/-! ## Concrete sample instances for witnesses and counterexamples -/

/-- A fresh stateless handler (`MCPLambdaHandler("srv")` with the default
no-op store and empty registries). -/
def statelessHandler : Handler :=
  ⟨"srv", "1.0.0", [], [], [], [], [], ⟨true, [], "session-1"⟩⟩

/-- A stateful (non-no-op) store currently holding the single session
`"s1"`. -/
def statefulStore : SessionStore := ⟨false, ["s1"], "s2"⟩

/-- A handler with empty registries over `statefulStore`. -/
def statefulHandler : Handler :=
  ⟨"srv", "1.0.0", [], [], [], [], [], statefulStore⟩

/-- An `Enum` subclass `Color` with two string-valued members. -/
def colorEnum : PyType := .enum "Color" [.str "red", .str "green"]

/-- A callable with a single enum-typed parameter. -/
def enumParamFunc : PyFunc :=
  ⟨"pick_color", none, [("color", colorEnum)], fun _ => .ok (.other "ok")⟩

/-- A callable that always raises `Exception("boom failed")`. -/
def raisingFunc : PyFunc :=
  ⟨"boom", none, [("x", .int)], fun _ => .error ⟨.userExc, "boom failed"⟩⟩

/-- A stateless handler with `raisingFunc` registered both as a tool and as
a prompt, each under the name `"boom"`. -/
def failingHandler : Handler :=
  registerPrompt (registerTool statelessHandler none (some "d") raisingFunc)
    none (some "d") raisingFunc

/-- A handler with `enumParamFunc` registered as a tool, for schema
inspection at a concrete input. -/
def enumToolHandler : Handler :=
  registerTool statelessHandler none (some "d") enumParamFunc

/-- A handler with `enumParamFunc` registered as a prompt, for schema
inspection at a concrete input. -/
def enumPromptHandler : Handler :=
  registerPrompt statelessHandler none (some "d") enumParamFunc

/-! ## Helper lemmas -/

theorem alistGet_dictSet_self {α : Type} (kvs : List (String × α)) (k : String) (v : α) :
    alistGet (dictSet kvs k v) k = some v := by
  induction kvs with
  | nil => simp [dictSet, alistGet]
  | cons kv rest ih =>
      obtain ⟨k₁, v₁⟩ := kv
      by_cases hk : k₁ = k
      · simp [dictSet, hk, alistGet]
      · simp [dictSet, hk, alistGet, ih]

theorem handle_request_rpcEventParams (h : Handler) (rid : Json) (m : String)
    (ps : List (String × Json)) :
    handle_request h (rpcEventParams rid m ps) =
      dispatchValidated h ⟨some rid, m, some ps⟩ none := by
  simp [handle_request, rpcEventParams, normalizeHeaders, dictSet, strLower, charLower,
        alistGet, jsonLoads, envelopeBad, dictGet, dictHasKey, modelValidate, optStrTruthy]

theorem handle_request_rpcEventNoParams (h : Handler) (rid : Json) (m : String) :
    handle_request h (rpcEventNoParams rid m) =
      dispatchValidated h ⟨some rid, m, none⟩ none := by
  simp [handle_request, rpcEventNoParams, normalizeHeaders, dictSet, strLower, charLower,
        alistGet, jsonLoads, envelopeBad, dictGet, dictHasKey, modelValidate, optStrTruthy]

theorem handle_request_sessionRpcEvent (h : Handler) (sid : String) (rid : Json) (m : String) :
    handle_request h (sessionRpcEvent sid rid m) =
      dispatchValidated h ⟨some rid, m, none⟩ (some sid) := by
  simp [handle_request, sessionRpcEvent, normalizeHeaders, dictSet, strLower, charLower,
        alistGet, jsonLoads, envelopeBad, dictGet, dictHasKey, modelValidate]

theorem dispatchValidated_noop_nosession (h : Handler) (req : JRReq)
    (hno : h.sessionStore.isNoOp = true) (hm : req.method ≠ "initialize") :
    dispatchValidated h req none = routeMethod h req none := by
  simp [dispatchValidated, hm, optStrTruthy, hno]

theorem dispatchValidated_invalidSession (h : Handler) (req : JRReq) (sid : String)
    (hm : req.method ≠ "initialize") (hne : sid ≠ "")
    (hget : h.sessionStore.getSession sid = none) :
    dispatchValidated h req (some sid) =
      createErrorResponse (-32000) "Invalid or expired session" req.id none none (some 404) := by
  simp [dispatchValidated, hm, optStrTruthy, hne, hget]

theorem dispatchValidated_sessionRequired (h : Handler) (req : JRReq)
    (hm : req.method ≠ "initialize") (hno : h.sessionStore.isNoOp = false) :
    dispatchValidated h req none =
      createErrorResponse (-32000) "Session required" req.id none none (some 400) := by
  simp [dispatchValidated, hm, optStrTruthy, hno]

theorem routeMethod_toolsCall_notFound (h : Handler) (rid : Option Json)
    (sid : Option String) (tname : String) (args : Json)
    (hnf : alistGet h.tools tname = none) :
    routeMethod h ⟨rid, "tools/call", some [("name", .str tname), ("arguments", args)]⟩ sid =
      createErrorResponse (-32601) ("Tool \x27" ++ tname ++ "\x27 not found")
        rid none sid none := by
  simp [routeMethod, paramsTruthy, dictGet, pyStrOpt, pyStr, hnf]

theorem routeMethod_toolsCall_error (h : Handler) (rid : Option Json)
    (sid : Option String) (tname : String) (args : Json) (e : PyExc)
    (hf : (alistGet h.tools tname).isSome = true)
    (he : runToolBody h tname args = .error e) :
    routeMethod h ⟨rid, "tools/call", some [("name", .str tname), ("arguments", args)]⟩ sid =
      createErrorResponse (-32603) ("Error executing tool: " ++ e.msg)
        rid (some [errorContentDump e.msg]) sid none := by
  simp [routeMethod, paramsTruthy, dictGet, hf, he]

theorem routeMethod_promptsGet_error (h : Handler) (rid : Option Json)
    (sid : Option String) (pname : String) (args : Json) (e : PyExc)
    (hf : (alistGet h.prompts pname).isSome = true)
    (he : runPromptBody h pname args = .error e) :
    routeMethod h ⟨rid, "prompts/get", some [("name", .str pname), ("arguments", args)]⟩ sid =
      createErrorResponse (-32603) ("Error executing prompt: " ++ e.msg)
        rid (some [errorContentDump e.msg]) sid none := by
  simp [routeMethod, paramsTruthy, dictGet, hf, he]

theorem routeMethod_callGuardFallthrough (h : Handler) (rid : Option Json)
    (sid : Option String) (m : String) (ps : Option (List (String × Json)))
    (hp : paramsTruthy ps = false)
    (hm : m = "tools/call" ∨ m = "prompts/get") :
    routeMethod h ⟨rid, m, ps⟩ sid =
      createErrorResponse (-32601) ("Method not found: " ++ m) rid none sid none := by
  rcases hm with hm | hm <;> subst hm <;> simp [routeMethod, hp, resourcesRead]

theorem charToSextet_sextetToChar_fin :
    ∀ n : Fin 64, charToSextet (sextetToChar n.1) = n.1 := by decide

theorem charToSextet_sextetToChar {n : Nat} (h : n < 64) :
    charToSextet (sextetToChar n) = n := charToSextet_sextetToChar_fin ⟨n, h⟩

theorem sextetToChar_ne_pad_fin : ∀ n : Fin 64, sextetToChar n.1 ≠ '=' := by decide

theorem sextetToChar_ne_pad {n : Nat} (h : n < 64) : sextetToChar n ≠ '=' :=
  sextetToChar_ne_pad_fin ⟨n, h⟩

theorem b64_roundtrip : ∀ bs : List Nat, (∀ b ∈ bs, b < 256) →
    b64decodeChars (b64encodeChars bs) = bs
  | [], _ => rfl
  | [a], h => by
      have ha : a < 256 := h a (by simp)
      simp only [b64encodeChars, b64decodeChars, if_true]
      rw [charToSextet_sextetToChar (by omega : a / 4 < 64),
          charToSextet_sextetToChar (by omega : a % 4 * 16 < 64)]
      simp only [List.cons.injEq, and_true]
      omega
  | [a, b], h => by
      have ha : a < 256 := h a (by simp)
      have hb : b < 256 := h b (by simp)
      simp only [b64encodeChars, b64decodeChars]
      rw [if_neg (sextetToChar_ne_pad (by omega : b % 16 * 4 < 64))]
      simp only [if_true]
      rw [charToSextet_sextetToChar (by omega : a / 4 < 64),
          charToSextet_sextetToChar (by omega : a % 4 * 16 + b / 16 < 64),
          charToSextet_sextetToChar (by omega : b % 16 * 4 < 64)]
      simp only [List.cons.injEq, and_true]
      omega
  | a :: b :: c :: rest, h => by
      have ha : a < 256 := h a (by simp)
      have hb : b < 256 := h b (by simp)
      have hc : c < 256 := h c (by simp)
      have hrest : ∀ x ∈ rest, x < 256 := fun x hx => h x (by simp [hx])
      simp only [b64encodeChars, b64decodeChars]
      rw [if_neg (sextetToChar_ne_pad (by omega : b % 16 * 4 + c / 64 < 64)),
          if_neg (sextetToChar_ne_pad (by omega : c % 64 < 64))]
      rw [charToSextet_sextetToChar (by omega : a / 4 < 64),
          charToSextet_sextetToChar (by omega : a % 4 * 16 + b / 16 < 64),
          charToSextet_sextetToChar (by omega : b % 16 * 4 + c / 64 < 64),
          charToSextet_sextetToChar (by omega : c % 64 < 64)]
      rw [b64_roundtrip rest hrest]
      simp only [List.cons.injEq, and_true]
      omega

theorem sniffMime_png (t : List Nat) : sniffMime (pngMagic ++ t) = "image/png" := by
  simp [sniffMime, pngMagic, jpegMagic, List.isPrefixOf]

theorem getTypeSchema_eq_spec : ∀ t : PyType, getTypeSchema t = spec41TypeSchema t
  | .int => rfl
  | .float => rfl
  | .bool => rfl
  | .str => rfl
  | .enum n vs => rfl
  | .plain => rfl
  | .otherGeneric => rfl
  | .dictOf [] => rfl
  | .dictOf [k] => rfl
  | .dictOf (k :: v :: rest) => by
      simp [getTypeSchema, spec41TypeSchema, getTypeSchema_eq_spec v]
  | .listOf [] => rfl
  | .listOf (e :: rest) => by
      simp [getTypeSchema, spec41TypeSchema, getTypeSchema_eq_spec e]

theorem alistGet_baseHeaders (sid : Option String) :
    alistGet (baseHeaders sid) "Content-Type" = some "application/json"
    ∧ alistGet (baseHeaders sid) "MCP-Version" = some "0.6"
    ∧ alistGet (baseHeaders sid) "MCP-Session-Id" = sessionEcho sid := by
  match sid with
  | none => exact ⟨rfl, rfl, rfl⟩
  | some s =>
      by_cases hs : s = ""
      · subst hs; exact ⟨rfl, rfl, rfl⟩
      · refine ⟨?_, ?_, ?_⟩ <;> simp [baseHeaders, alistGet, sessionEcho, hs]

/-! ## Claims -/

/-- C1: the content normalizer is not total as claimed — a tool-result
object whose content sequence is empty makes `result.content[0]` raise
`IndexError` ("list index out of range"), also when nested in a list, so
this handler return value does not map to a non-throwing content
sequence. -/
theorem C1_toolResult_empty_raises :
    convertResultToContent (.toolResult [])
      = .error ⟨.indexError, "list index out of range"⟩
    ∧ convertResultToContent (.list [.toolResult []])
      = .error ⟨.indexError, "list index out of range"⟩ := ⟨rfl, rfl⟩

/-- C2 (counterexample): the DELETE-verb session-deletion path returns bare
`{"statusCode": 204}` / `{"statusCode": 404}` dicts, so those responses
carry no `Content-Type`, no `MCP-Version`, and no `MCP-Session-Id` header at
all, contradicting the claim for that path. -/
theorem C2_delete_headers_counterexample :
    handle_request statefulHandler (deleteEvent "s1") = ⟨204, none, []⟩
    ∧ handle_request statefulHandler (deleteEvent "zz") = ⟨404, none, []⟩
    ∧ alistGet (handle_request statefulHandler (deleteEvent "s1")).headers
        "Content-Type" = none
    ∧ alistGet (handle_request statefulHandler (deleteEvent "s1")).headers
        "MCP-Version" = none
    ∧ alistGet (handle_request statefulHandler (deleteEvent "s1")).headers
        "MCP-Session-Id" = none := by decide

/-- C2 (amended): every JSON-RPC response built by the error/success
response builders carries `Content-Type: application/json` and
`MCP-Version: 0.6` and echoes `MCP-Session-Id` exactly when a truthy session
id is supplied to the builder; the DELETE-verb session-deletion path's 204
and 404 responses carry no headers and no body. -/
theorem C2_response_headers :
    (∀ (code : Int) (msg : String) (rid : Option Json)
        (ec : Option (List Json)) (sid : Option String) (st : Option Nat),
        alistGet (createErrorResponse code msg rid ec sid st).headers
            "Content-Type" = some "application/json"
        ∧ alistGet (createErrorResponse code msg rid ec sid st).headers
            "MCP-Version" = some "0.6"
        ∧ alistGet (createErrorResponse code msg rid ec sid st).headers
            "MCP-Session-Id" = sessionEcho sid)
    ∧ (∀ (result : Json) (rid : Option Json) (sid : Option String),
        alistGet (createSuccessResponse result rid sid).headers
            "Content-Type" = some "application/json"
        ∧ alistGet (createSuccessResponse result rid sid).headers
            "MCP-Version" = some "0.6"
        ∧ alistGet (createSuccessResponse result rid sid).headers
            "MCP-Session-Id" = sessionEcho sid)
    ∧ (∀ (h : Handler) (ev : Event),
        ev.httpMethod = some "DELETE"
        → optStrTruthy (alistGet (normalizeHeaders ev.headers) "mcp-session-id") = true
        → (handle_request h ev).headers = [] ∧ (handle_request h ev).body = none) := by
  refine ⟨?_, ?_, ?_⟩
  · intro code msg rid ec sid st
    exact alistGet_baseHeaders sid
  · intro result rid sid
    exact alistGet_baseHeaders sid
  · intro h ev hdel hsid
    simp only [handle_request]
    rw [if_pos ⟨hdel, hsid⟩]
    by_cases hd : h.sessionStore.deleteSession
        ((alistGet (normalizeHeaders ev.headers) "mcp-session-id").getD "") = true
    · simp [hd]
    · simp [hd]

/-- C2 (witness): the amended DELETE-path statement applied to the concrete
stateful handler and a DELETE event for its live session. -/
theorem C2_response_headers_witness :
    (deleteEvent "s1").httpMethod = some "DELETE"
    ∧ optStrTruthy (alistGet (normalizeHeaders (deleteEvent "s1").headers)
        "mcp-session-id") = true
    ∧ (handle_request statefulHandler (deleteEvent "s1")).headers = []
    ∧ (handle_request statefulHandler (deleteEvent "s1")).body = none :=
  ⟨rfl, by decide,
   (C2_response_headers.2.2 statefulHandler (deleteEvent "s1") rfl (by decide)).1,
   (C2_response_headers.2.2 statefulHandler (deleteEvent "s1") rfl (by decide)).2⟩

/-- C3 (counterexample): a prompt registration of a callable with an
enum-typed parameter stores `{"type": "string"}` for that parameter — not
the section-4.1 mapping `{"type": "string", "enum": [member values]}` — so
the claim fails for prompts. -/
theorem C3_prompt_enum_counterexample :
    alistGet enumPromptHandler.prompts "pick_color"
      = some (descriptorDump "pick_color" "d"
          (.obj [("type", .str "object"),
                 ("properties", .obj [("color", .obj [("type", .str "string")])]),
                 ("required", .arr [.str "color"])]))
    ∧ spec41TypeSchema colorEnum
        = .obj [("type", .str "string"),
                ("enum", .arr [.str "red", .str "green"])]
    ∧ promptParamSchema colorEnum ≠ spec41TypeSchema colorEnum := by decide

/-- C3 (amended): tool registrations derive their stored input schema by
the section-4.1 recursive mapping (the code's `get_type_schema` coincides
with the spec's mapping on every type) with every declared parameter
required, while prompt registrations instead use a flat mapping that sends
the four scalar builtins to their scalar schemas and everything else —
including enumerated, mapping and sequence types — to `{"type":"string"}`,
also with every parameter required. -/
theorem C3_schema_mappings :
    (∀ t, getTypeSchema t = spec41TypeSchema t)
    ∧ (∀ (h : Handler) (nameArg descArg : Option String) (f : PyFunc),
        alistGet (registerTool h nameArg descArg f).tools (pyOrStr nameArg f.pyName)
          = some (descriptorDump (pyOrStr nameArg f.pyName)
              (pyOrStr descArg (docFirstParagraph f.doc))
              (toolInputSchema (stripReturnHint f.hints))))
    ∧ (∀ (h : Handler) (nameArg descArg : Option String) (f : PyFunc),
        alistGet (registerPrompt h nameArg descArg f).prompts (pyOrStr nameArg f.pyName)
          = some (descriptorDump (pyOrStr nameArg f.pyName)
              (pyOrStr descArg (docFirstParagraph f.doc))
              (promptInputSchema (stripReturnHint f.hints))))
    ∧ (∀ t, promptParamSchema t = specPromptFlatSchema t) := by
  refine ⟨getTypeSchema_eq_spec, ?_, ?_, ?_⟩
  · intro h nameArg descArg f
    simp [registerTool, alistGet_dictSet_self]
  · intro h nameArg descArg f
    simp [registerPrompt, alistGet_dictSet_self]
  · intro t
    cases t <;> rfl

/-- C4: an exception raised by a registered tool or prompt implementation
during a `tools/call` / `prompts/get` request is caught and reported as a
`-32603` JSON-RPC error whose message carries the exception text and whose
`errorContent` holds an error content item with the same text — the
response equality shows the exception never escapes the dispatcher. -/
theorem C4_impl_exception_reported (h : Handler) (rid : Json)
    (tname pname : String) (targs pargs : Json) (e₁ e₂ : PyExc)
    (hno : h.sessionStore.isNoOp = true)
    (ht : (alistGet h.tools tname).isSome = true)
    (hte : runToolBody h tname targs = .error e₁)
    (hp : (alistGet h.prompts pname).isSome = true)
    (hpe : runPromptBody h pname pargs = .error e₂) :
    handle_request h (toolsCallEvent rid tname targs)
      = createErrorResponse (-32603) ("Error executing tool: " ++ e₁.msg)
          (some rid) (some [errorContentDump e₁.msg]) none none
    ∧ handle_request h (promptsGetEvent rid pname pargs)
      = createErrorResponse (-32603) ("Error executing prompt: " ++ e₂.msg)
          (some rid) (some [errorContentDump e₂.msg]) none none := by
  constructor
  · have h1 := handle_request_rpcEventParams h rid "tools/call"
      [("name", .str tname), ("arguments", targs)]
    have h2 := dispatchValidated_noop_nosession h
      ⟨some rid, "tools/call", some [("name", .str tname), ("arguments", targs)]⟩
      hno (by decide : ("tools/call" : String) ≠ "initialize")
    have h3 := routeMethod_toolsCall_error h (some rid) none tname targs e₁ ht hte
    exact h1.trans (h2.trans h3)
  · have h1 := handle_request_rpcEventParams h rid "prompts/get"
      [("name", .str pname), ("arguments", pargs)]
    have h2 := dispatchValidated_noop_nosession h
      ⟨some rid, "prompts/get", some [("name", .str pname), ("arguments", pargs)]⟩
      hno (by decide : ("prompts/get" : String) ≠ "initialize")
    have h3 := routeMethod_promptsGet_error h (some rid) none pname pargs e₂ hp hpe
    exact h1.trans (h2.trans h3)

/-- C4 (witness): the concrete raising tool/prompt `"boom"` of
`failingHandler`, called with well-formed params. -/
theorem C4_impl_exception_reported_witness :
    (failingHandler.sessionStore.isNoOp = true
     ∧ (alistGet failingHandler.tools "boom").isSome = true
     ∧ runToolBody failingHandler "boom" (.obj [("x", .num 1)])
         = .error ⟨.userExc, "boom failed"⟩
     ∧ (alistGet failingHandler.prompts "boom").isSome = true
     ∧ runPromptBody failingHandler "boom" (.obj [("x", .num 1)])
         = .error ⟨.userExc, "boom failed"⟩)
    ∧ (handle_request failingHandler (toolsCallEvent (.num 5) "boom" (.obj [("x", .num 1)]))
        = createErrorResponse (-32603) ("Error executing tool: " ++ "boom failed")
            (some (.num 5)) (some [errorContentDump "boom failed"]) none none
       ∧ handle_request failingHandler (promptsGetEvent (.num 5) "boom" (.obj [("x", .num 1)]))
        = createErrorResponse (-32603) ("Error executing prompt: " ++ "boom failed")
            (some (.num 5)) (some [errorContentDump "boom failed"]) none none) :=
  ⟨⟨by decide, by decide, by decide, by decide, by decide⟩,
   C4_impl_exception_reported failingHandler (.num 5) "boom" "boom"
     (.obj [("x", .num 1)]) (.obj [("x", .num 1)])
     ⟨.userExc, "boom failed"⟩ ⟨.userExc, "boom failed"⟩
     (by decide) (by decide) (by decide) (by decide) (by decide)⟩

/-- C5: for any non-initialize method, a supplied session id that does not
resolve to a stored session yields `-32000` "Invalid or expired session" at
HTTP 404 (with no routing — the response is the same for every registry),
and a missing session id with a non-no-op store yields `-32000` "Session
required" at HTTP 400. -/
theorem C5_session_validation (h₁ h₂ : Handler) (rid : Json) (m : String) (sid : String)
    (hm : m ≠ "initialize") (hsid : sid ≠ "")
    (hget : h₁.sessionStore.getSession sid = none)
    (hstateful : h₂.sessionStore.isNoOp = false) :
    handle_request h₁ (sessionRpcEvent sid rid m)
      = createErrorResponse (-32000) "Invalid or expired session"
          (some rid) none none (some 404)
    ∧ (handle_request h₁ (sessionRpcEvent sid rid m)).statusCode = 404
    ∧ handle_request h₂ (rpcEventNoParams rid m)
      = createErrorResponse (-32000) "Session required"
          (some rid) none none (some 400)
    ∧ (handle_request h₂ (rpcEventNoParams rid m)).statusCode = 400 := by
  have e₁ := (handle_request_sessionRpcEvent h₁ sid rid m).trans
    (dispatchValidated_invalidSession h₁ ⟨some rid, m, none⟩ sid hm hsid hget)
  have e₂ := (handle_request_rpcEventNoParams h₂ rid m).trans
    (dispatchValidated_sessionRequired h₂ ⟨some rid, m, none⟩ hm hstateful)
  exact ⟨e₁, by rw [e₁]; rfl, e₂, by rw [e₂]; rfl⟩

/-- C5 (witness): the statements applied to the concrete stateful handler
with an unknown session id `"zz"` and, respectively, no session header. -/
theorem C5_session_validation_witness :
    (("ping" : String) ≠ "initialize" ∧ ("zz" : String) ≠ ""
     ∧ statefulHandler.sessionStore.getSession "zz" = none
     ∧ statefulHandler.sessionStore.isNoOp = false)
    ∧ (handle_request statefulHandler (sessionRpcEvent "zz" (.num 1) "ping")
        = createErrorResponse (-32000) "Invalid or expired session"
            (some (.num 1)) none none (some 404)
       ∧ handle_request statefulHandler (rpcEventNoParams (.num 1) "ping")
        = createErrorResponse (-32000) "Session required"
            (some (.num 1)) none none (some 400)) :=
  ⟨⟨by decide, by decide, by decide, by decide⟩,
   (C5_session_validation statefulHandler statefulHandler (.num 1) "ping" "zz"
      (by decide) (by decide) (by decide) (by decide)).1,
   (C5_session_validation statefulHandler statefulHandler (.num 1) "ping" "zz"
      (by decide) (by decide) (by decide) (by decide)).2.2.1⟩

/-- C6: a `tools/call` request naming a tool that is not in the tool
registry yields `-32601` ("Tool ... not found") at HTTP 404; the handler
`h` is arbitrary, so the response is the same fixed error for every
implementation registry — no registered implementation is invoked. -/
theorem C6_unknown_tool (h : Handler) (rid : Json) (tname : String) (targs : Json)
    (hno : h.sessionStore.isNoOp = true)
    (hnf : alistGet h.tools tname = none) :
    handle_request h (toolsCallEvent rid tname targs)
      = createErrorResponse (-32601) ("Tool \x27" ++ tname ++ "\x27 not found")
          (some rid) none none none
    ∧ (handle_request h (toolsCallEvent rid tname targs)).statusCode = 404 := by
  have e₁ := (handle_request_rpcEventParams h rid "tools/call"
      [("name", .str tname), ("arguments", targs)]).trans
    ((dispatchValidated_noop_nosession h
        ⟨some rid, "tools/call", some [("name", .str tname), ("arguments", targs)]⟩
        hno (by decide : ("tools/call" : String) ≠ "initialize")).trans
      (routeMethod_toolsCall_notFound h (some rid) none tname targs hnf))
  exact ⟨e₁, (congrArg HttpResponse.statusCode e₁).trans rfl⟩

/-- C6 (witness): calling the unregistered tool `"nope"` on the fresh
stateless handler. -/
theorem C6_unknown_tool_witness :
    (statelessHandler.sessionStore.isNoOp = true
     ∧ alistGet statelessHandler.tools "nope" = none)
    ∧ (handle_request statelessHandler (toolsCallEvent (.num 7) "nope" (.obj []))
        = createErrorResponse (-32601) ("Tool \x27" ++ "nope" ++ "\x27 not found")
            (some (.num 7)) none none none
       ∧ (handle_request statelessHandler
            (toolsCallEvent (.num 7) "nope" (.obj []))).statusCode = 404) :=
  ⟨⟨by decide, by decide⟩,
   C6_unknown_tool statelessHandler (.num 7) "nope" (.obj []) (by decide) (by decide)⟩

/-- C7: the error-code-to-HTTP-status table is exactly as claimed
(−32700/−32600/−32602 → 400, −32601 → 404, −32603 → 500, default 500), the
error response builder uses it when no per-call status is given, and a
truthy (positive) per-call status code overrides it. -/
theorem C7_error_status_table :
    errorCodeToHttpStatus (-32700) = 400
    ∧ errorCodeToHttpStatus (-32600) = 400
    ∧ errorCodeToHttpStatus (-32602) = 400
    ∧ errorCodeToHttpStatus (-32601) = 404
    ∧ errorCodeToHttpStatus (-32603) = 500
    ∧ (∀ c : Int, c ≠ -32700 → c ≠ -32600 → c ≠ -32601 → c ≠ -32602 → c ≠ -32603 →
         errorCodeToHttpStatus c = 500)
    ∧ (∀ (code : Int) (msg : String) (rid : Option Json)
         (ec : Option (List Json)) (sid : Option String),
         (createErrorResponse code msg rid ec sid none).statusCode
           = errorCodeToHttpStatus code)
    ∧ (∀ (code : Int) (msg : String) (rid : Option Json)
         (ec : Option (List Json)) (sid : Option String) (st : Nat), 0 < st →
         (createErrorResponse code msg rid ec sid (some st)).statusCode = st) := by
  refine ⟨by decide, by decide, by decide, by decide, by decide, ?_, ?_, ?_⟩
  · intro c h1 h2 h3 h4 h5
    simp [errorCodeToHttpStatus, h1, h2, h3, h4, h5]
  · intro code msg rid ec sid
    rfl
  · intro code msg rid ec sid st hst
    simp [createErrorResponse, Nat.pos_iff_ne_zero.mp hst]

/-- C7 (witness): the default row at the unlisted code −31999 and the
override at status 404. -/
theorem C7_error_status_table_witness :
    (((-31999 : Int) ≠ -32700 ∧ (0 : Nat) < 404)
     ∧ errorCodeToHttpStatus (-31999) = 500)
    ∧ (createErrorResponse (-32000) "m" none none none (some 404)).statusCode = 404 :=
  ⟨⟨⟨by decide, by decide⟩,
    C7_error_status_table.2.2.2.2.2.1 (-31999)
      (by decide) (by decide) (by decide) (by decide) (by decide)⟩,
   C7_error_status_table.2.2.2.2.2.2.2 (-32000) "m" none none none 404 (by decide)⟩

/-- C8: byte strings starting with the PNG magic `89 50 4E 47 0D 0A 1A 0A`
are normalized to exactly one image content item with mime type
`image/png`, and base64-decoding its data recovers the original bytes. -/
theorem C8_png_roundtrip (bs : List Nat) (hb : ∀ b ∈ bs, b < 256)
    (hp : pngMagic.isPrefixOf bs = true) :
    convertResultToContent (.bytes bs)
      = .ok [imageContentDump (String.mk (b64encodeChars bs)) "image/png"]
    ∧ b64decodeChars (b64encodeChars bs) = bs := by
  obtain ⟨t, ht⟩ : ∃ t, bs = pngMagic ++ t := by
    obtain ⟨t, ht⟩ := List.isPrefixOf_iff_prefix.mp hp
    exact ⟨t, ht.symm⟩
  subst ht
  exact ⟨by simp [convertResultToContent, sniffMime_png], b64_roundtrip _ hb⟩

/-- C8 (witness): the round trip at the concrete PNG-tagged byte string
`pngMagic ++ [0, 255, 100]`. -/
theorem C8_png_roundtrip_witness :
    ((∀ b ∈ pngMagic ++ [0, 255, 100], b < 256)
     ∧ pngMagic.isPrefixOf (pngMagic ++ [0, 255, 100]) = true)
    ∧ (convertResultToContent (.bytes (pngMagic ++ [0, 255, 100]))
        = .ok [imageContentDump
            (String.mk (b64encodeChars (pngMagic ++ [0, 255, 100]))) "image/png"]
       ∧ b64decodeChars (b64encodeChars (pngMagic ++ [0, 255, 100]))
        = pngMagic ++ [0, 255, 100]) :=
  ⟨⟨by decide, by decide⟩, C8_png_roundtrip (pngMagic ++ [0, 255, 100]) (by decide) (by decide)⟩

/-- C9: a validated `tools/call` or `prompts/get` request whose params are
absent or the empty object fails the branch guard and falls through to the
unknown-method branch, yielding `-32601` "Method not found: ..."; the
handler is arbitrary, so no registered implementation is invoked. -/
theorem C9_missing_params_fallthrough (h : Handler) (rid : Json)
    (hno : h.sessionStore.isNoOp = true) :
    handle_request h (rpcEventNoParams rid "tools/call")
      = createErrorResponse (-32601) "Method not found: tools/call"
          (some rid) none none none
    ∧ handle_request h (rpcEventParams rid "tools/call" [])
      = createErrorResponse (-32601) "Method not found: tools/call"
          (some rid) none none none
    ∧ handle_request h (rpcEventNoParams rid "prompts/get")
      = createErrorResponse (-32601) "Method not found: prompts/get"
          (some rid) none none none
    ∧ handle_request h (rpcEventParams rid "prompts/get" [])
      = createErrorResponse (-32601) "Method not found: prompts/get"
          (some rid) none none none := by
  refine ⟨?_, ?_, ?_, ?_⟩
  · exact (handle_request_rpcEventNoParams h rid "tools/call").trans
      ((dispatchValidated_noop_nosession h ⟨some rid, "tools/call", none⟩ hno
          (by decide : ("tools/call" : String) ≠ "initialize")).trans
        (routeMethod_callGuardFallthrough h (some rid) none "tools/call" none
          rfl (Or.inl rfl)))
  · exact (handle_request_rpcEventParams h rid "tools/call" []).trans
      ((dispatchValidated_noop_nosession h ⟨some rid, "tools/call", some []⟩ hno
          (by decide : ("tools/call" : String) ≠ "initialize")).trans
        (routeMethod_callGuardFallthrough h (some rid) none "tools/call" (some [])
          rfl (Or.inl rfl)))
  · exact (handle_request_rpcEventNoParams h rid "prompts/get").trans
      ((dispatchValidated_noop_nosession h ⟨some rid, "prompts/get", none⟩ hno
          (by decide : ("prompts/get" : String) ≠ "initialize")).trans
        (routeMethod_callGuardFallthrough h (some rid) none "prompts/get" none
          rfl (Or.inr rfl)))
  · exact (handle_request_rpcEventParams h rid "prompts/get" []).trans
      ((dispatchValidated_noop_nosession h ⟨some rid, "prompts/get", some []⟩ hno
          (by decide : ("prompts/get" : String) ≠ "initialize")).trans
        (routeMethod_callGuardFallthrough h (some rid) none "prompts/get" (some [])
          rfl (Or.inr rfl)))

/-- C9 (witness): the fall-through at the fresh stateless handler. -/
theorem C9_missing_params_fallthrough_witness :
    statelessHandler.sessionStore.isNoOp = true
    ∧ handle_request statelessHandler (rpcEventNoParams (.num 2) "tools/call")
      = createErrorResponse (-32601) "Method not found: tools/call"
          (some (.num 2)) none none none
    ∧ handle_request statelessHandler (rpcEventParams (.num 2) "prompts/get" [])
      = createErrorResponse (-32601) "Method not found: prompts/get"
          (some (.num 2)) none none none :=
  ⟨by decide,
   (C9_missing_params_fallthrough statelessHandler (.num 2) (by decide)).1,
   (C9_missing_params_fallthrough statelessHandler (.num 2) (by decide)).2.2.2⟩

/-- C10: a non-DELETE JSON event whose `body` entry is missing (KeyError)
or not a string (TypeError) does not produce the `-32700` parse error: the
exception reaches the outer handler and is reported as `-32000` with the
exception text at HTTP 500, echoing the session id supplied so far. -/
theorem C10_body_exceptions_top_level (h : Handler) (m sid : String)
    (hm : m ≠ "DELETE") :
    handle_request h (bodylessEvent m sid none)
      = createErrorResponse (-32000) "\x27body\x27" none none (some sid) none
    ∧ (handle_request h (bodylessEvent m sid none)).statusCode = 500
    ∧ handle_request h (bodylessEvent m sid (some .nonStr))
      = createErrorResponse (-32000) "the JSON object must be str, bytes or bytearray"
          none none (some sid) none
    ∧ (handle_request h (bodylessEvent m sid (some .nonStr))).statusCode = 500 := by
  have e₁ : handle_request h (bodylessEvent m sid none)
      = createErrorResponse (-32000) "\x27body\x27" none none (some sid) none := by
    simp [handle_request, bodylessEvent, normalizeHeaders, dictSet, strLower, charLower,
          alistGet, jsonLoads, hm]
  have e₂ : handle_request h (bodylessEvent m sid (some .nonStr))
      = createErrorResponse (-32000) "the JSON object must be str, bytes or bytearray"
          none none (some sid) none := by
    simp [handle_request, bodylessEvent, normalizeHeaders, dictSet, strLower, charLower,
          alistGet, jsonLoads, hm]
  exact ⟨e₁, by rw [e₁]; rfl, e₂, by rw [e₂]; rfl⟩

/-- C10 (witness): the missing-body and non-string-body events at method
POST with session id `"s1"`. -/
theorem C10_body_exceptions_top_level_witness :
    ("POST" : String) ≠ "DELETE"
    ∧ handle_request statefulHandler (bodylessEvent "POST" "s1" none)
      = createErrorResponse (-32000) "\x27body\x27" none none (some "s1") none
    ∧ handle_request statefulHandler (bodylessEvent "POST" "s1" (some .nonStr))
      = createErrorResponse (-32000) "the JSON object must be str, bytes or bytearray"
          none none (some "s1") none :=
  ⟨by decide,
   (C10_body_exceptions_top_level statefulHandler "POST" "s1" (by decide)).1,
   (C10_body_exceptions_top_level statefulHandler "POST" "s1" (by decide)).2.2.1⟩

end MCP
